import Mathlib

/-!
Verification of the lighting-control core of the Ultimaker griffin LED
subsystem (files `mainLightingController.py`, `buttonRingController.py`,
`ledService.py`).

The embedding uses rationals for the Python floats: every numeric
operation the lighting core performs (scaling by `user_brightness / 100`,
clamping with `min`/`max`, the fixed dark factor `0.3`) is exact
arithmetic, so `ℚ` mirrors the source faithfully on all inputs the
theorems quantify over.  Random draws (`random.uniform(0, 360)`) are
threaded through as explicit parameters.  The deferred party-mode timer
is recorded as the list of scheduled delays.
-/

/-- HSV color triple as used by the controllers.  Modelled from the spec:
the `hsvColor.HsvColor` class is not among the sources under verification;
per the external-interface section the hue/saturation/brightness setters
store the given value directly without clamping at this layer. -/
structure HsvColor where
  hue : ℚ
  saturation : ℚ
  value : ℚ
deriving Repr, DecidableEq

/-- The animation effect variants of the LED core: a Static color, a Fade
towards a target color over a duration, a Blink of a color at a frequency
for a count, and a Glow oscillating between two colors at a frequency.
Modelled from the spec: the effect classes are not among the sources; the
controllers only construct them, so each variant records exactly its
construction parameters. -/
inductive Effect where
  | Static (color : HsvColor)
  | Fade (target : HsvColor) (duration : ℚ)
  | Blink (color : HsvColor) (frequency : ℚ) (count : ℚ)
  | Glow (colorA : HsvColor) (colorB : HsvColor) (frequency : ℚ)
deriving Repr, DecidableEq

namespace colorTheme

/-- Modelled from the spec: the `colorTheme` module is not among the
sources.  The claims depend only on which named theme constant a
controller selects, never on the numeric channel values, so the values
below are representative HSV renderings of the color names. -/
def BLACK : HsvColor := ⟨0, 0, 0⟩

/-- Modelled from the spec: see `colorTheme.BLACK`. -/
def WHITE : HsvColor := ⟨0, 0, 100⟩

/-- Modelled from the spec: see `colorTheme.BLACK`. -/
def RED : HsvColor := ⟨0, 100, 100⟩

/-- Modelled from the spec: see `colorTheme.BLACK`. -/
def YELLOW : HsvColor := ⟨60, 100, 100⟩

/-- Modelled from the spec: see `colorTheme.BLACK`. -/
def GREEN : HsvColor := ⟨120, 100, 100⟩

/-- Modelled from the spec: see `colorTheme.BLACK`. -/
def CYAN : HsvColor := ⟨180, 100, 100⟩

/-- Modelled from the spec: see `colorTheme.BLACK`. -/
def PURPLE : HsvColor := ⟨300, 100, 100⟩

/-- Modelled from the spec: see `colorTheme.BLACK`; described as "blueish". -/
def ULTIMAKER : HsvColor := ⟨210, 60, 100⟩

end colorTheme

/-- Steady-state (never-completing) effects are Static and Glow; Fade and
Blink are transient.  Modelled from the spec glossary. -/
def Effect.isSteadyState : Effect → Bool
  | .Static _ => true
  | .Glow _ _ _ => true
  | _ => false

/-- Modelled from the spec: the abstract controller's scheduler queue is
not among the sources.  Enqueueing a steady-state effect first removes
every other steady-state effect already queued, then appends; a transient
effect is appended as-is. -/
def enqueueEffect (q : List Effect) (e : Effect) : List Effect :=
  if e.isSteadyState then q.filter (fun x => !x.isSteadyState) ++ [e]
  else q ++ [e]

/-- Modelled from the spec: `hasEffectInQueue` is true when more than one
entry is pending (a further effect beyond the active one). -/
def hasEffectInQueue (q : List Effect) : Bool := 1 < q.length

/-- A value stored in the persisted preferences registry: the lighting
core stores booleans (mode flags) and floats (user brightness). -/
inductive PrefValue where
  | bool (b : Bool)
  | float (q : ℚ)
deriving Repr, DecidableEq

/-- Overwrite the binding of key `k` in an association list. -/
def setEntry (l : List (String × PrefValue)) (k : String) (v : PrefValue) :
    List (String × PrefValue) :=
  (k, v) :: l.filter (fun p => p.1 != k)

/-- Modelled from the spec: the `registryFile.RegistryFile` store is not
among the sources.  `mem` is the in-memory key-value state mutated by the
setters; `disk` is the persisted copy, refreshed only by `forceSave`; a
reload reads `disk`. -/
structure RegistryFile where
  mem : List (String × PrefValue)
  disk : List (String × PrefValue)
deriving Repr, DecidableEq

/-- Whether the registry holds a value for `k` (`RegistryFile.has`). -/
def RegistryFile.has (rf : RegistryFile) (k : String) : Bool :=
  (List.lookup k rf.mem).isSome

/-- Store a boolean under `k` (`RegistryFile.setAsBoolean`). -/
def RegistryFile.setAsBoolean (rf : RegistryFile) (k : String) (b : Bool) : RegistryFile :=
  { rf with mem := setEntry rf.mem k (.bool b) }

/-- Store a float under `k` (`RegistryFile.setAsFloat`). -/
def RegistryFile.setAsFloat (rf : RegistryFile) (k : String) (q : ℚ) : RegistryFile :=
  { rf with mem := setEntry rf.mem k (.float q) }

/-- Read a boolean under `k`; `none` when absent or not a boolean. -/
def RegistryFile.getAsBoolean (rf : RegistryFile) (k : String) : Option Bool :=
  match List.lookup k rf.mem with
  | some (.bool b) => some b
  | _ => none

/-- Read a float under `k`; `none` when absent or not a float. -/
def RegistryFile.getAsFloat (rf : RegistryFile) (k : String) : Option ℚ :=
  match List.lookup k rf.mem with
  | some (.float q) => some q
  | _ => none

/-- Persist the in-memory state (`RegistryFile.forceSave`). -/
def RegistryFile.forceSave (rf : RegistryFile) : RegistryFile :=
  { rf with disk := rf.mem }

/-- A fresh registry loaded from the persisted copy, as a later process
start would observe it. -/
def RegistryFile.reload (rf : RegistryFile) : RegistryFile :=
  { mem := rf.disk, disk := rf.disk }

theorem lookup_filter_ne (l : List (String × PrefValue)) (k kx : String) (h : kx ≠ k) :
    List.lookup kx (l.filter (fun p => p.1 != k)) = List.lookup kx l := by
  induction l with
  | nil => rfl
  | cons a l ih =>
    by_cases hak : a.1 = k
    · have h1 : (a.1 != k) = false := by simp [hak]
      have h2 : (kx == a.1) = false := by simp [hak, h]
      simp [List.filter_cons, h1, List.lookup, h2, ih]
    · have h1 : (a.1 != k) = true := by simp [hak]
      by_cases hka : kx = a.1
      · simp [List.filter_cons, h1, List.lookup, hka]
      · have h2 : (kx == a.1) = false := by simp [hka]
        simp [List.filter_cons, h1, List.lookup, h2, ih]

theorem lookup_setEntry_self (l : List (String × PrefValue)) (k : String) (v : PrefValue) :
    List.lookup k (setEntry l k v) = some v := by
  simp [setEntry, List.lookup]

theorem lookup_setEntry_ne (l : List (String × PrefValue)) (k kx : String) (v : PrefValue)
    (h : kx ≠ k) : List.lookup kx (setEntry l k v) = List.lookup kx l := by
  have h2 : (kx == k) = false := by simp [h]
  simp [setEntry, List.lookup, h2, lookup_filter_ne l k kx h]

/-! ## Main lighting controller (`mainLightingController.py`) -/

/-- Mode flag: glow on/off when the print is finished. -/
def MODE_FLAG_GLOW_WHEN_FINISHED : String := "glow_when_print_is_finished"

/-- Mode flag: lighting only on while printing. -/
def MODE_FLAG_ON_WHEN_PRINTING : String := "on_when_printing"

/-- Mode flag: party mode, cycling between colors. -/
def MODE_FLAG_PARTY : String := "party"

/-- Runtime flag: glow during an authentication request. -/
def RUNTIME_FLAG_AUTHENTICATING : String := "authenticating"

/-- Runtime flag: glow while an API-driven message is on screen. -/
def RUNTIME_FLAG_MESSAGE : String := "message"

/-- The closed set of mode flags (`__ALL_MODE_FLAGS`), in source order. -/
def ALL_MODE_FLAGS : List String :=
  [ MODE_FLAG_GLOW_WHEN_FINISHED, MODE_FLAG_ON_WHEN_PRINTING, MODE_FLAG_PARTY ]

/-- The closed set of runtime flags (`__ALL_RUNTIME_FLAGS`). -/
def ALL_RUNTIME_FLAGS : List String :=
  [RUNTIME_FLAG_AUTHENTICATING, RUNTIME_FLAG_MESSAGE]

/-- `__STARTUP_FADE_TIME = 6.0`. -/
def STARTUP_FADE_TIME : ℚ := 6

/-- `__DEFAULT_GLOW_FREQUENCY = 0.1`. -/
def DEFAULT_GLOW_FREQUENCY : ℚ := 1/10

/-- `__DARK_COLOR_BRIGHTNESS_FACTOR = 0.3`. -/
def DARK_COLOR_BRIGHTNESS_FACTOR : ℚ := 3/10

/-- Overwrite the binding of key `k` in a runtime-flag dictionary. -/
def setFlagEntry (l : List (String × Bool)) (k : String) (v : Bool) :
    List (String × Bool) :=
  (k, v) :: l.filter (fun p => p.1 != k)

/-- State of `MainLightingController`.  The non-volatile mode flags and
`user_brightness` live in `prefs` (the property container is modelled as
the write-through view of the registry, per the spec's
`NonVolatileProperty` contract); `runtime_flags` is the volatile
dictionary; `queue` is the inherited scheduler queue; `party_timers`
records the delays of the deferred party-mode timers scheduled so far. -/
structure MainLightingController where
  prefs : RegistryFile
  main_color : HsvColor
  runtime_flags : List (String × Bool)
  printer_state : String
  job_state : String
  queue : List Effect
  party_timers : List ℚ
deriving Repr, DecidableEq

namespace MainLightingController

/-- `_queueEffect`, inherited from the abstract controller: enqueue on the
scheduler queue. -/
def queueEffect (c : MainLightingController) (e : Effect) : MainLightingController :=
  { c with queue := enqueueEffect c.queue e }

/-- `_hasEffectInQueue`, inherited from the abstract controller. -/
def hasQueuedEffect (c : MainLightingController) : Bool :=
  hasEffectInQueue c.queue

/-- `getModeFlag`: reads the non-volatile property.  The Python version
asserts the key is present (the constructor installs every mode flag);
absent keys are totalized to `false`, a case no well-formed state hits. -/
def getModeFlag (c : MainLightingController) (flag_name : String) : Bool :=
  (c.prefs.getAsBoolean flag_name).getD false

/-- `getRuntimeFlag`: `self.__runtime_flags.get(flag_name, False)`. -/
def getRuntimeFlag (c : MainLightingController) (flag_name : String) : Bool :=
  (List.lookup flag_name c.runtime_flags).getD false

/-- `getUserBrightness`: reads the non-volatile `user_brightness`
property (totalized to `0` for the absent case no well-formed state hits). -/
def getUserBrightness (c : MainLightingController) : ℚ :=
  (c.prefs.getAsFloat "user_brightness").getD 0

/-- `getMainColorHue`. -/
def getMainColorHue (c : MainLightingController) : ℚ := c.main_color.hue

/-- `getMainColorSaturation`. -/
def getMainColorSaturation (c : MainLightingController) : ℚ := c.main_color.saturation

/-- `getMainColorBrightness`. -/
def getMainColorBrightness (c : MainLightingController) : ℚ := c.main_color.value

/-- `__getColor`: the user color with its value scaled by
`user_brightness / 100`. -/
def getColor (c : MainLightingController) : HsvColor :=
  ⟨c.main_color.hue, c.main_color.saturation,
   c.main_color.value * c.getUserBrightness / 100⟩

/-- `__getDarkColor`: `__getColor` with the value further multiplied by
`__DARK_COLOR_BRIGHTNESS_FACTOR`. -/
def getDarkColor (c : MainLightingController) : HsvColor :=
  let color := c.getColor
  { color with value := color.value * DARK_COLOR_BRIGHTNESS_FACTOR }

/-- `__stateIsPrinting`. -/
def stateIsPrinting (c : MainLightingController) : Bool :=
  c.printer_state == "printing"

/-- `__stateIsError`. -/
def stateIsError (c : MainLightingController) : Bool :=
  c.printer_state == "error"

/-- `__stateIsMaintenance`. -/
def stateIsMaintenance (c : MainLightingController) : Bool :=
  c.printer_state == "maintenance"

/-- `__stateIsWaitingForCleanup`. -/
def stateIsWaitingForCleanup (c : MainLightingController) : Bool :=
  c.printer_state == "printing" &&
    (c.job_state == "wait_cleanup" || c.job_state == "none")

/-- `__update`: re-evaluate the priority policy and enqueue the selected
effect.  `randomHue` is the value `random.uniform(0, 360)` would return
should the party branch draw one; scheduling the 2-second party timer is
recorded by consing its delay onto `party_timers`. -/
def update (c : MainLightingController) (randomHue : ℚ) : MainLightingController :=
  if c.getModeFlag MODE_FLAG_PARTY then
    if !c.hasQueuedEffect then
      let c2 := c.queueEffect (Effect.Fade ⟨randomHue, 100, c.getUserBrightness⟩ 2)
      { c2 with party_timers := 2 :: c2.party_timers }
    else c
  else if c.getRuntimeFlag RUNTIME_FLAG_AUTHENTICATING ||
          c.getRuntimeFlag RUNTIME_FLAG_MESSAGE then
    c.queueEffect (Effect.Glow c.getColor c.getDarkColor DEFAULT_GLOW_FREQUENCY)
  else if c.stateIsWaitingForCleanup then
    c.queueEffect (Effect.Static colorTheme.PURPLE)
  else if c.stateIsPrinting then
    c.queueEffect (Effect.Static colorTheme.CYAN)
  else if c.stateIsMaintenance then
    c.queueEffect (Effect.Static colorTheme.YELLOW)
  else if c.stateIsError then
    c.queueEffect (Effect.Static colorTheme.RED)
  else
    c.queueEffect (Effect.Static colorTheme.GREEN)

/-- `setMainColorHue`: store the hue unclamped, then `__update`. -/
def setMainColorHue (c : MainLightingController) (hue : ℚ) (randomHue : ℚ) :
    MainLightingController :=
  ({ c with main_color := { c.main_color with hue := hue } }).update randomHue

/-- `setMainColorSaturation`: store the saturation unclamped, then `__update`. -/
def setMainColorSaturation (c : MainLightingController) (saturation : ℚ) (randomHue : ℚ) :
    MainLightingController :=
  ({ c with main_color := { c.main_color with saturation := saturation } }).update randomHue

/-- `setMainColorBrightness`: store the value unclamped, then `__update`. -/
def setMainColorBrightness (c : MainLightingController) (brightness : ℚ) (randomHue : ℚ) :
    MainLightingController :=
  ({ c with main_color := { c.main_color with value := brightness } }).update randomHue

/-- `blink`: enqueue a Blink of the brightness-scaled current color. -/
def blink (c : MainLightingController) (frequency : ℚ) (count : ℚ) :
    MainLightingController :=
  c.queueEffect (Effect.Blink c.getColor frequency count)

/-- `setModeFlag`: assert membership in `__ALL_MODE_FLAGS` before any
mutation; on success write the non-volatile property — whose synchronous
change notification runs `__update` — and then call `__update` again.
The failed assertion is modelled as an `InvalidFlag` error. -/
def setModeFlag (c : MainLightingController) (flag_name : String) (new_value : Bool)
    (randomHue : ℚ) : Except String MainLightingController :=
  if ALL_MODE_FLAGS.contains flag_name then
    .ok ((({ c with prefs := c.prefs.setAsBoolean flag_name new_value }).update
            randomHue).update randomHue)
  else
    .error "InvalidFlag"

/-- `setRuntimeFlag`: assert membership in `__ALL_RUNTIME_FLAGS` before
any mutation; on success store in the volatile dictionary and `__update`. -/
def setRuntimeFlag (c : MainLightingController) (flag_name : String) (new_value : Bool)
    (randomHue : ℚ) : Except String MainLightingController :=
  if ALL_RUNTIME_FLAGS.contains flag_name then
    .ok (({ c with
            runtime_flags := setFlagEntry c.runtime_flags flag_name new_value }).update
          randomHue)
  else
    .error "InvalidFlag"

/-- `setUserBrightness`: clamp to `[0, 100]` with
`max(0.0, min(user_brightness, 100.0))`, then write the non-volatile
property, whose change notification runs `__update`. -/
def setUserBrightness (c : MainLightingController) (user_brightness : ℚ)
    (randomHue : ℚ) : MainLightingController :=
  let ub := max 0 (min user_brightness 100)
  ({ c with prefs := c.prefs.setAsFloat "user_brightness" ub }).update randomHue

/-- `resetToDefaultValues`: write the documented default for every mode
flag (in `__ALL_MODE_FLAGS` order) and for `user_brightness`, then
`forceSave`. -/
def resetToDefaultValues (c : MainLightingController) : MainLightingController :=
  { c with prefs :=
      ((((c.prefs.setAsBoolean MODE_FLAG_GLOW_WHEN_FINISHED true).setAsBoolean
            MODE_FLAG_ON_WHEN_PRINTING false).setAsBoolean
          MODE_FLAG_PARTY false).setAsFloat "user_brightness" 100).forceSave }

/-- `__onPrinterPropertyChanged` for `"state"`: store and `__update`. -/
def onStateChanged (c : MainLightingController) (value : String) (randomHue : ℚ) :
    MainLightingController :=
  ({ c with printer_state := value }).update randomHue

/-- `__onPrinterPropertyChanged` for `"job_state"`: store and `__update`. -/
def onJobStateChanged (c : MainLightingController) (value : String) (randomHue : ℚ) :
    MainLightingController :=
  ({ c with job_state := value }).update randomHue

/-- `__init__`: install missing defaults into the preferences, start from
the WHITE theme color with no runtime flags, read the printer state, and
enqueue the startup fade from black to the current color. -/
def init (prefs0 : RegistryFile) (printer_state job_state : String) :
    MainLightingController :=
  let prefs1 := if prefs0.has MODE_FLAG_GLOW_WHEN_FINISHED then prefs0
                else prefs0.setAsBoolean MODE_FLAG_GLOW_WHEN_FINISHED true
  let prefs2 := if prefs1.has MODE_FLAG_ON_WHEN_PRINTING then prefs1
                else prefs1.setAsBoolean MODE_FLAG_ON_WHEN_PRINTING false
  let prefs3 := if prefs2.has MODE_FLAG_PARTY then prefs2
                else prefs2.setAsBoolean MODE_FLAG_PARTY false
  let prefs4 := if prefs3.has "user_brightness" then prefs3
                else prefs3.setAsFloat "user_brightness" 100
  let c : MainLightingController :=
    { prefs := prefs4, main_color := colorTheme.WHITE, runtime_flags := [],
      printer_state := printer_state, job_state := job_state,
      queue := [], party_timers := [] }
  c.queueEffect (Effect.Fade c.getColor STARTUP_FADE_TIME)

end MainLightingController

/-! ## Button ring controller (`buttonRingController.py`) -/

/-- State of `ButtonRingController`: the observed printer properties, the
user-configurable custom theme color (initially a copy of the ULTIMAKER
theme color), and the inherited scheduler queue. -/
structure ButtonRingController where
  printer_state : String
  job_state : String
  interaction_required : Bool
  customTheme : HsvColor
  queue : List Effect
deriving Repr, DecidableEq

namespace ButtonRingController

/-- `_queueEffect`, inherited from the abstract controller. -/
def queueEffect (c : ButtonRingController) (e : Effect) : ButtonRingController :=
  { c with queue := enqueueEffect c.queue e }

/-- `__update`: re-evaluate the button-ring priority policy and enqueue
the selected effect. -/
def update (c : ButtonRingController) : ButtonRingController :=
  if c.printer_state == "error" then
    c.queueEffect (Effect.Glow colorTheme.BLACK colorTheme.RED (1/2))
  else if c.interaction_required then
    c.queueEffect (Effect.Glow colorTheme.BLACK colorTheme.YELLOW (1/2))
  else if c.printer_state == "printing" && c.job_state == "wait_cleanup" then
    c.queueEffect (Effect.Glow colorTheme.BLACK colorTheme.PURPLE (1/2))
  else if c.printer_state == "printing" && c.job_state == "paused" then
    c.queueEffect (Effect.Glow colorTheme.BLACK colorTheme.CYAN (1/2))
  else
    c.queueEffect (Effect.Static c.customTheme)

/-- `getCustomRingHue`. -/
def getCustomRingHue (c : ButtonRingController) : ℚ := c.customTheme.hue

/-- `getCustomRingSaturation`. -/
def getCustomRingSaturation (c : ButtonRingController) : ℚ := c.customTheme.saturation

/-- `getCustomRingBrightness`. -/
def getCustomRingBrightness (c : ButtonRingController) : ℚ := c.customTheme.value

/-- `setCustomRingHue`: store unclamped, then `__update`. -/
def setCustomRingHue (c : ButtonRingController) (hue : ℚ) : ButtonRingController :=
  ({ c with customTheme := { c.customTheme with hue := hue } }).update

/-- `setCustomRingSaturation`: store unclamped, then `__update`. -/
def setCustomRingSaturation (c : ButtonRingController) (saturation : ℚ) :
    ButtonRingController :=
  ({ c with customTheme := { c.customTheme with saturation := saturation } }).update

/-- `setCustomRingBrightness`: store unclamped, then `__update`. -/
def setCustomRingBrightness (c : ButtonRingController) (brightness : ℚ) :
    ButtonRingController :=
  ({ c with customTheme := { c.customTheme with value := brightness } }).update

/-- `__onPrinterPropertyChanged` for `"state"`. -/
def onStateChanged (c : ButtonRingController) (value : String) : ButtonRingController :=
  ({ c with printer_state := value }).update

/-- `__onPrinterPropertyChanged` for `"job_state"`. -/
def onJobStateChanged (c : ButtonRingController) (value : String) : ButtonRingController :=
  ({ c with job_state := value }).update

/-- `__onPrinterPropertyChanged` for `"interaction_required"`. -/
def onInteractionRequiredChanged (c : ButtonRingController) (value : Bool) :
    ButtonRingController :=
  ({ c with interaction_required := value }).update

/-- `__init__`: enqueue the startup fade to the ULTIMAKER color, read the
printer properties, and copy the ULTIMAKER color as the custom theme. -/
def init (printer_state job_state : String) (interaction_required : Bool) :
    ButtonRingController :=
  let c : ButtonRingController :=
    { printer_state := printer_state, job_state := job_state,
      interaction_required := interaction_required,
      customTheme := colorTheme.ULTIMAKER, queue := [] }
  { c with queue := enqueueEffect c.queue (Effect.Fade colorTheme.ULTIMAKER STARTUP_FADE_TIME) }

end ButtonRingController

/-! ## LED service facade (`ledService.py`) -/

/-- State of `LedService`: the running flag and the two optional
controllers this facade exposes (`__main_controller` and
`__button_ring_controller` both start as `None` and are only assigned in
`__start`). -/
structure LedService where
  running : Bool
  main_controller : Option MainLightingController
  button_ring_controller : Option ButtonRingController
deriving Repr, DecidableEq

/-- The environment observed by `LedService.__start`: the machine BOM id
(`getMachineBOM()[0]` as a string), the preferences file contents, and
the printer properties read by the controller constructors. -/
structure StartEnv where
  machine_bom : String
  prefs : RegistryFile
  printer_state : String
  job_state : String
  interaction_required : Bool
deriving Repr, DecidableEq

namespace LedService

/-- The state right after `LedService.__init__` (before the trailing
printer-state probe): not running, no controllers constructed. -/
def mk0 : LedService :=
  { running := false, main_controller := none, button_ring_controller := none }

/-- `resetSettings`: factory-reset callback; delegates when the main
controller exists, otherwise does nothing. -/
def resetSettings (s : LedService) : LedService :=
  match s.main_controller with
  | none => s
  | some c => { s with main_controller := some c.resetToDefaultValues }

/-- `setMainLightingHue`. -/
def setMainLightingHue (s : LedService) (hue : ℚ) (randomHue : ℚ) : LedService :=
  match s.main_controller with
  | none => s
  | some c => { s with main_controller := some (c.setMainColorHue hue randomHue) }

/-- `getMainLightingHue`. -/
def getMainLightingHue (s : LedService) : ℚ :=
  match s.main_controller with
  | none => 0
  | some c => c.getMainColorHue

/-- `setMainLightingSaturation`. -/
def setMainLightingSaturation (s : LedService) (saturation : ℚ) (randomHue : ℚ) :
    LedService :=
  match s.main_controller with
  | none => s
  | some c => { s with main_controller := some (c.setMainColorSaturation saturation randomHue) }

/-- `getMainLightingSaturation`. -/
def getMainLightingSaturation (s : LedService) : ℚ :=
  match s.main_controller with
  | none => 0
  | some c => c.getMainColorSaturation

/-- `setMainLightingBrightness`. -/
def setMainLightingBrightness (s : LedService) (brightness : ℚ) (randomHue : ℚ) :
    LedService :=
  match s.main_controller with
  | none => s
  | some c => { s with main_controller := some (c.setMainColorBrightness brightness randomHue) }

/-- `getMainLightingBrightness`. -/
def getMainLightingBrightness (s : LedService) : ℚ :=
  match s.main_controller with
  | none => 0
  | some c => c.getMainColorBrightness

/-- `setRingLightingHue`. -/
def setRingLightingHue (s : LedService) (hue : ℚ) : LedService :=
  match s.button_ring_controller with
  | none => s
  | some c => { s with button_ring_controller := some (c.setCustomRingHue hue) }

/-- `getRingLightingHue`. -/
def getRingLightingHue (s : LedService) : ℚ :=
  match s.button_ring_controller with
  | none => 0
  | some c => c.getCustomRingHue

/-- `setRingLightingSaturation`. -/
def setRingLightingSaturation (s : LedService) (saturation : ℚ) : LedService :=
  match s.button_ring_controller with
  | none => s
  | some c => { s with button_ring_controller := some (c.setCustomRingSaturation saturation) }

/-- `getRingLightingSaturation`. -/
def getRingLightingSaturation (s : LedService) : ℚ :=
  match s.button_ring_controller with
  | none => 0
  | some c => c.getCustomRingSaturation

/-- `setRingLightingBrightness`. -/
def setRingLightingBrightness (s : LedService) (brightness : ℚ) : LedService :=
  match s.button_ring_controller with
  | none => s
  | some c => { s with button_ring_controller := some (c.setCustomRingBrightness brightness) }

/-- `getRingLightingBrightness`. -/
def getRingLightingBrightness (s : LedService) : ℚ :=
  match s.button_ring_controller with
  | none => 0
  | some c => c.getCustomRingBrightness

/-- `setMainLightingUserBrightness`. -/
def setMainLightingUserBrightness (s : LedService) (brightness : ℚ) (randomHue : ℚ) :
    LedService :=
  match s.main_controller with
  | none => s
  | some c => { s with main_controller := some (c.setUserBrightness brightness randomHue) }

/-- `getMainLightingUserBrightness`. -/
def getMainLightingUserBrightness (s : LedService) : ℚ :=
  match s.main_controller with
  | none => 0
  | some c => c.getUserBrightness

/-- `setMainLightingModeFlag`: delegates to the controller's validating
setter; a no-op success when the controller does not exist. -/
def setMainLightingModeFlag (s : LedService) (flag_name : String) (new_mode : Bool)
    (randomHue : ℚ) : Except String LedService :=
  match s.main_controller with
  | none => .ok s
  | some c =>
      (c.setModeFlag flag_name new_mode randomHue).map
        (fun c2 => { s with main_controller := some c2 })

/-- `getMainLightingModeFlag`. -/
def getMainLightingModeFlag (s : LedService) (flag_name : String) : Bool :=
  match s.main_controller with
  | none => false
  | some c => c.getModeFlag flag_name

/-- `setMainLightingRuntimeFlag`. -/
def setMainLightingRuntimeFlag (s : LedService) (flag_name : String) (new_mode : Bool)
    (randomHue : ℚ) : Except String LedService :=
  match s.main_controller with
  | none => .ok s
  | some c =>
      (c.setRuntimeFlag flag_name new_mode randomHue).map
        (fun c2 => { s with main_controller := some c2 })

/-- `getMainLightingRuntimeFlag`. -/
def getMainLightingRuntimeFlag (s : LedService) (flag_name : String) : Bool :=
  match s.main_controller with
  | none => false
  | some c => c.getRuntimeFlag flag_name

/-- `blinkMainLighting`. -/
def blinkMainLighting (s : LedService) (frequency : ℚ) (count : ℚ) : LedService :=
  match s.main_controller with
  | none => s
  | some c => { s with main_controller := some (c.blink frequency count) }

/-- `__start`: runs once; constructs the main lighting controller, and
assigns the button-ring controller only when the machine BOM id is 9066
or 9511 (UM3 / UM3 Extended) — on any other machine a throwaway
controller on dummy hardware is built and the field keeps its old value. -/
def start (s : LedService) (env : StartEnv) : LedService :=
  if s.running then s
  else
    let s1 : LedService :=
      { s with
          running := true,
          main_controller :=
            some (MainLightingController.init env.prefs env.printer_state env.job_state) }
    if env.machine_bom == "9066" || env.machine_bom == "9511" then
      { s1 with
          button_ring_controller :=
            some (ButtonRingController.init env.printer_state env.job_state
                    env.interaction_required) }
    else s1

/-- `_onPrinterStateChanged`: start the service once the printer is no
longer booting. -/
def onPrinterStateChanged (s : LedService) (state : String) (env : StartEnv) : LedService :=
  if state != "booting" then s.start env else s

end LedService

/-- One externally triggered operation on the lighting system: a facade
call on the service, or a printer property-change notification fanned out
to the service and every constructed controller, exactly the entry points
`ledService.py` wires up. -/
inductive LedOp where
  | resetSettings
  | setMainLightingHue (v randomHue : ℚ)
  | setMainLightingSaturation (v randomHue : ℚ)
  | setMainLightingBrightness (v randomHue : ℚ)
  | setRingLightingHue (v : ℚ)
  | setRingLightingSaturation (v : ℚ)
  | setRingLightingBrightness (v : ℚ)
  | setMainLightingUserBrightness (v randomHue : ℚ)
  | setMainLightingModeFlag (flag : String) (v : Bool) (randomHue : ℚ)
  | setMainLightingRuntimeFlag (flag : String) (v : Bool) (randomHue : ℚ)
  | blinkMainLighting (frequency count : ℚ)
  | printerStateChanged (value : String) (env : StartEnv) (randomHue : ℚ)
  | jobStateChanged (value : String) (randomHue : ℚ)
  | interactionRequiredChanged (value : Bool)
deriving Repr, DecidableEq

/-- Apply one operation to the service state.  A raising flag setter
(failed assertion) leaves the caller-observed state unchanged. -/
def applyOp (s : LedService) (op : LedOp) : LedService :=
  match op with
  | .resetSettings => s.resetSettings
  | .setMainLightingHue v r => s.setMainLightingHue v r
  | .setMainLightingSaturation v r => s.setMainLightingSaturation v r
  | .setMainLightingBrightness v r => s.setMainLightingBrightness v r
  | .setRingLightingHue v => s.setRingLightingHue v
  | .setRingLightingSaturation v => s.setRingLightingSaturation v
  | .setRingLightingBrightness v => s.setRingLightingBrightness v
  | .setMainLightingUserBrightness v r => s.setMainLightingUserBrightness v r
  | .setMainLightingModeFlag f v r =>
      match s.setMainLightingModeFlag f v r with
      | .ok s2 => s2
      | .error _ => s
  | .setMainLightingRuntimeFlag f v r =>
      match s.setMainLightingRuntimeFlag f v r with
      | .ok s2 => s2
      | .error _ => s
  | .blinkMainLighting f n => s.blinkMainLighting f n
  | .printerStateChanged value env r =>
      let s1 : LedService :=
        { s with
          main_controller := s.main_controller.map (fun c => c.onStateChanged value r),
          button_ring_controller :=
            s.button_ring_controller.map (fun c => c.onStateChanged value) }
      s1.onPrinterStateChanged value env
  | .jobStateChanged value r =>
      { s with
        main_controller := s.main_controller.map (fun c => c.onJobStateChanged value r),
        button_ring_controller :=
          s.button_ring_controller.map (fun c => c.onJobStateChanged value) }
  | .interactionRequiredChanged value =>
      { s with
        button_ring_controller :=
          s.button_ring_controller.map (fun c => c.onInteractionRequiredChanged value) }

/-- Apply a whole lifetime of operations, oldest first. -/
def applyOps (s : LedService) (ops : List LedOp) : LedService :=
  List.foldl applyOp s ops

/-- An operation is ring-safe when, if it can trigger `__start`, the
machine BOM id it observes is neither 9066 nor 9511. -/
def LedOp.ringSafe : LedOp → Prop
  | .printerStateChanged _ env _ => env.machine_bom ≠ "9066" ∧ env.machine_bom ≠ "9511"
  | _ => True

/-! ## Helper lemmas -/

theorem lookup_setFlagEntry_self (l : List (String × Bool)) (k : String) (v : Bool) :
    List.lookup k (setFlagEntry l k v) = some v := by
  simp [setFlagEntry, List.lookup]

namespace MainLightingController

theorem update_preserves (c : MainLightingController) (r : ℚ) :
    (c.update r).prefs = c.prefs ∧ (c.update r).main_color = c.main_color ∧
    (c.update r).runtime_flags = c.runtime_flags ∧
    (c.update r).printer_state = c.printer_state ∧
    (c.update r).job_state = c.job_state := by
  refine ⟨?_, ?_, ?_, ?_, ?_⟩ <;> unfold update <;> (repeat' split) <;> rfl

theorem update_getModeFlag (c : MainLightingController) (r : ℚ) (flag : String) :
    (c.update r).getModeFlag flag = c.getModeFlag flag := by
  simp [getModeFlag, (update_preserves c r).1]

theorem update_getRuntimeFlag (c : MainLightingController) (r : ℚ) (flag : String) :
    (c.update r).getRuntimeFlag flag = c.getRuntimeFlag flag := by
  simp [getRuntimeFlag, (update_preserves c r).2.2.1]

theorem update_getUserBrightness (c : MainLightingController) (r : ℚ) :
    (c.update r).getUserBrightness = c.getUserBrightness := by
  simp [getUserBrightness, (update_preserves c r).1]

theorem update_main_color (c : MainLightingController) (r : ℚ) :
    (c.update r).main_color = c.main_color :=
  (update_preserves c r).2.1

end MainLightingController

/-! ## Sample states for witnesses -/

/-- A preferences registry as the constructor leaves it on a fresh setup. -/
def basePrefs : RegistryFile :=
  { mem := [ (MODE_FLAG_GLOW_WHEN_FINISHED, PrefValue.bool true),
             (MODE_FLAG_ON_WHEN_PRINTING, PrefValue.bool false),
             (MODE_FLAG_PARTY, PrefValue.bool false),
             ("user_brightness", PrefValue.float 100) ], disk := [] }

/-- A main lighting controller state in the given printer/job state, with
party mode off and no runtime flags set. -/
def baseMain (printer_state job_state : String) : MainLightingController :=
  { prefs := basePrefs, main_color := colorTheme.WHITE, runtime_flags := [],
    printer_state := printer_state, job_state := job_state,
    queue := [], party_timers := [] }

/-- A button ring controller state in the given printer/job state. -/
def baseRing (printer_state job_state : String) (interaction_required : Bool) :
    ButtonRingController :=
  { printer_state := printer_state, job_state := job_state,
    interaction_required := interaction_required,
    customTheme := colorTheme.ULTIMAKER, queue := [] }

/-! ## Claim theorems -/

/-- Claim C1: every re-evaluation of the main-lighting priority policy
selects the effect by first match in this exact order — party flag;
else runtime flag authenticating or message; else printing with job state
wait_cleanup or none enqueues Static Purple; else printing enqueues
Static Cyan; else maintenance enqueues Static Yellow; else error enqueues
Static Red; else Static Green.  In particular an error state with no
party/runtime overrides enqueues Static Red, and printing/wait_cleanup
with no overrides enqueues Static Purple. -/
theorem main_priority_policy (c : MainLightingController) (r : ℚ) :
    (c.getModeFlag MODE_FLAG_PARTY = true → c.hasQueuedEffect = false →
       (c.update r).queue =
         enqueueEffect c.queue (Effect.Fade ⟨r, 100, c.getUserBrightness⟩ 2)) ∧
    (c.getModeFlag MODE_FLAG_PARTY = false →
      ((c.getRuntimeFlag RUNTIME_FLAG_AUTHENTICATING ||
        c.getRuntimeFlag RUNTIME_FLAG_MESSAGE) = true →
         c.update r =
           c.queueEffect (Effect.Glow c.getColor c.getDarkColor DEFAULT_GLOW_FREQUENCY)) ∧
      (c.getRuntimeFlag RUNTIME_FLAG_AUTHENTICATING = false →
       c.getRuntimeFlag RUNTIME_FLAG_MESSAGE = false →
        ((c.printer_state = "printing" →
          (c.job_state = "wait_cleanup" ∨ c.job_state = "none") →
            c.update r = c.queueEffect (Effect.Static colorTheme.PURPLE)) ∧
         (c.printer_state = "printing" → c.job_state ≠ "wait_cleanup" →
          c.job_state ≠ "none" →
            c.update r = c.queueEffect (Effect.Static colorTheme.CYAN)) ∧
         (c.printer_state = "maintenance" →
            c.update r = c.queueEffect (Effect.Static colorTheme.YELLOW)) ∧
         (c.printer_state = "error" →
            c.update r = c.queueEffect (Effect.Static colorTheme.RED)) ∧
         (c.printer_state ≠ "printing" → c.printer_state ≠ "maintenance" →
          c.printer_state ≠ "error" →
            c.update r = c.queueEffect (Effect.Static colorTheme.GREEN))))) := by
  refine ⟨?_, fun hp => ⟨?_, fun ha hm => ⟨?_, ?_, ?_, ?_, ?_⟩⟩⟩
  · intro hp hq
    simp [MainLightingController.update, hp, hq, MainLightingController.queueEffect]
  · intro hrm
    simp [MainLightingController.update, hp, hrm]
  · intro hps hjs
    rcases hjs with hjs | hjs <;>
      simp [MainLightingController.update, hp, ha, hm,
            MainLightingController.stateIsWaitingForCleanup, hps, hjs]
  · intro hps hj1 hj2
    simp [MainLightingController.update, hp, ha, hm,
          MainLightingController.stateIsWaitingForCleanup,
          MainLightingController.stateIsPrinting, hps, hj1, hj2]
  · intro hps
    simp [MainLightingController.update, hp, ha, hm,
          MainLightingController.stateIsWaitingForCleanup,
          MainLightingController.stateIsPrinting,
          MainLightingController.stateIsMaintenance, hps]
  · intro hps
    simp [MainLightingController.update, hp, ha, hm,
          MainLightingController.stateIsWaitingForCleanup,
          MainLightingController.stateIsPrinting,
          MainLightingController.stateIsMaintenance,
          MainLightingController.stateIsError, hps]
  · intro h1 h2 h3
    simp [MainLightingController.update, hp, ha, hm,
          MainLightingController.stateIsWaitingForCleanup,
          MainLightingController.stateIsPrinting,
          MainLightingController.stateIsMaintenance,
          MainLightingController.stateIsError, h1, h2, h3]

/-- Claim C1 witness: in a concrete error state with no overrides the
policy enqueues Static Red; in a concrete printing/wait_cleanup state it
enqueues Static Purple. -/
theorem main_priority_policy_spot :
    (baseMain "error" "none").update 0 =
      (baseMain "error" "none").queueEffect (Effect.Static colorTheme.RED) ∧
    (baseMain "printing" "wait_cleanup").update 0 =
      (baseMain "printing" "wait_cleanup").queueEffect (Effect.Static colorTheme.PURPLE) := by
  constructor
  · exact (((main_priority_policy (baseMain "error" "none") 0).2 (by decide)).2
      (by decide) (by decide)).2.2.2.1 (by decide)
  · exact ((((main_priority_policy (baseMain "printing" "wait_cleanup") 0).2
      (by decide)).2 (by decide) (by decide)).1 (by decide) (Or.inl (by decide)))

/-- Claim C2: the button-ring priority policy selects by first match —
error enqueues Glow Black-Red at 0.5 Hz; else interaction required
enqueues Glow Black-Yellow at 0.5 Hz; else printing/wait_cleanup enqueues
Glow Black-Purple at 0.5 Hz; else printing/paused enqueues Glow
Black-Cyan at 0.5 Hz; else a Static effect with the user-configured
custom theme color. -/
theorem ring_priority_policy (c : ButtonRingController) :
    (c.printer_state = "error" →
       c.update = c.queueEffect (Effect.Glow colorTheme.BLACK colorTheme.RED (1/2))) ∧
    (c.printer_state ≠ "error" → c.interaction_required = true →
       c.update = c.queueEffect (Effect.Glow colorTheme.BLACK colorTheme.YELLOW (1/2))) ∧
    (c.printer_state ≠ "error" → c.interaction_required = false →
      ((c.printer_state = "printing" → c.job_state = "wait_cleanup" →
          c.update = c.queueEffect (Effect.Glow colorTheme.BLACK colorTheme.PURPLE (1/2))) ∧
       (c.printer_state = "printing" → c.job_state ≠ "wait_cleanup" →
        c.job_state = "paused" →
          c.update = c.queueEffect (Effect.Glow colorTheme.BLACK colorTheme.CYAN (1/2))) ∧
       ((c.printer_state ≠ "printing" ∨
         (c.job_state ≠ "wait_cleanup" ∧ c.job_state ≠ "paused")) →
          c.update = c.queueEffect (Effect.Static c.customTheme)))) := by
  refine ⟨?_, ?_, fun he hi => ⟨?_, ?_, ?_⟩⟩
  · intro he
    simp [ButtonRingController.update, he]
  · intro he hi
    simp [ButtonRingController.update, he, hi]
  · intro hps hjs
    simp [ButtonRingController.update, he, hi, hps, hjs]
  · intro hps hj1 hj2
    simp [ButtonRingController.update, he, hi, hps, hj1, hj2]
  · intro hd
    rcases hd with hps | ⟨hj1, hj2⟩
    · by_cases he2 : c.printer_state = "error"
      · exact absurd he2 he
      · simp [ButtonRingController.update, he, hi, hps]
    · simp [ButtonRingController.update, he, hi, hj1, hj2]

/-- Claim C2 witness: concrete spot checks of all five branches of the
button-ring policy. -/
theorem ring_priority_policy_spot :
    (baseRing "error" "none" false).update =
      (baseRing "error" "none" false).queueEffect
        (Effect.Glow colorTheme.BLACK colorTheme.RED (1/2)) ∧
    (baseRing "idle" "none" true).update =
      (baseRing "idle" "none" true).queueEffect
        (Effect.Glow colorTheme.BLACK colorTheme.YELLOW (1/2)) ∧
    (baseRing "printing" "wait_cleanup" false).update =
      (baseRing "printing" "wait_cleanup" false).queueEffect
        (Effect.Glow colorTheme.BLACK colorTheme.PURPLE (1/2)) ∧
    (baseRing "printing" "paused" false).update =
      (baseRing "printing" "paused" false).queueEffect
        (Effect.Glow colorTheme.BLACK colorTheme.CYAN (1/2)) ∧
    (baseRing "idle" "none" false).update =
      (baseRing "idle" "none" false).queueEffect
        (Effect.Static (baseRing "idle" "none" false).customTheme) := by
  refine ⟨?_, ?_, ?_, ?_, ?_⟩
  · exact (ring_priority_policy (baseRing "error" "none" false)).1 (by decide)
  · exact (ring_priority_policy (baseRing "idle" "none" true)).2.1 (by decide) (by decide)
  · exact ((ring_priority_policy (baseRing "printing" "wait_cleanup" false)).2.2
      (by decide) (by decide)).1 (by decide) (by decide)
  · exact ((ring_priority_policy (baseRing "printing" "paused" false)).2.2
      (by decide) (by decide)).2.1 (by decide) (by decide) (by decide)
  · exact ((ring_priority_policy (baseRing "idle" "none" false)).2.2
      (by decide) (by decide)).2.2 (Or.inl (by decide))

/-- Claim C3: while the owning controller has not yet been constructed,
every float-returning facade getter returns exactly 0, every
bool-returning getter returns exactly false, and every setter — blink and
resetSettings included — returns without changing any state and without
raising an error. -/
theorem facade_degrades_when_not_ready (s : LedService) :
    (s.main_controller = none →
       s.getMainLightingHue = 0 ∧
       s.getMainLightingSaturation = 0 ∧
       s.getMainLightingBrightness = 0 ∧
       s.getMainLightingUserBrightness = 0 ∧
       (∀ f, s.getMainLightingModeFlag f = false) ∧
       (∀ f, s.getMainLightingRuntimeFlag f = false) ∧
       (∀ v r, s.setMainLightingHue v r = s) ∧
       (∀ v r, s.setMainLightingSaturation v r = s) ∧
       (∀ v r, s.setMainLightingBrightness v r = s) ∧
       (∀ v r, s.setMainLightingUserBrightness v r = s) ∧
       (∀ f v r, s.setMainLightingModeFlag f v r = Except.ok s) ∧
       (∀ f v r, s.setMainLightingRuntimeFlag f v r = Except.ok s) ∧
       (∀ f n, s.blinkMainLighting f n = s) ∧
       s.resetSettings = s) ∧
    (s.button_ring_controller = none →
       s.getRingLightingHue = 0 ∧
       s.getRingLightingSaturation = 0 ∧
       s.getRingLightingBrightness = 0 ∧
       (∀ v, s.setRingLightingHue v = s) ∧
       (∀ v, s.setRingLightingSaturation v = s) ∧
       (∀ v, s.setRingLightingBrightness v = s)) := by
  constructor
  · intro h
    refine ⟨?_, ?_, ?_, ?_, ?_, ?_, ?_, ?_, ?_, ?_, ?_, ?_, ?_, ?_⟩ <;>
      simp [LedService.getMainLightingHue, LedService.getMainLightingSaturation,
            LedService.getMainLightingBrightness, LedService.getMainLightingUserBrightness,
            LedService.getMainLightingModeFlag, LedService.getMainLightingRuntimeFlag,
            LedService.setMainLightingHue, LedService.setMainLightingSaturation,
            LedService.setMainLightingBrightness, LedService.setMainLightingUserBrightness,
            LedService.setMainLightingModeFlag, LedService.setMainLightingRuntimeFlag,
            LedService.blinkMainLighting, LedService.resetSettings, h]
  · intro h
    refine ⟨?_, ?_, ?_, ?_, ?_, ?_⟩ <;>
      simp [LedService.getRingLightingHue, LedService.getRingLightingSaturation,
            LedService.getRingLightingBrightness, LedService.setRingLightingHue,
            LedService.setRingLightingSaturation, LedService.setRingLightingBrightness, h]

/-- Claim C3 witness: the degradation contract evaluated at the state the
service constructor leaves before startup, where no controller exists. -/
theorem facade_degrades_when_not_ready_spot :
    LedService.mk0.getMainLightingHue = 0 ∧
    LedService.mk0.getMainLightingModeFlag MODE_FLAG_PARTY = false ∧
    LedService.mk0.setMainLightingHue 50 0 = LedService.mk0 ∧
    LedService.mk0.setMainLightingModeFlag "bogus" true 0 = Except.ok LedService.mk0 ∧
    LedService.mk0.getRingLightingHue = 0 ∧
    LedService.mk0.setRingLightingHue 50 = LedService.mk0 := by
  have hmain := (facade_degrades_when_not_ready LedService.mk0).1 rfl
  have hring := (facade_degrades_when_not_ready LedService.mk0).2 rfl
  exact ⟨hmain.1, hmain.2.2.2.2.1 MODE_FLAG_PARTY, hmain.2.2.2.2.2.2.1 50 0,
         hmain.2.2.2.2.2.2.2.2.2.2.1 "bogus" true 0, hring.1, hring.2.2.2.1 50⟩

/-- Claim C4: with the party flag set, re-evaluation for a random draw
`r` from the uniform(0, 360) range enqueues a Fade of duration 2 seconds
toward hue `r`, saturation 100 and value equal to the stored
user brightness, and schedules another re-evaluation 2 seconds later —
but only when no further effect is pending in the queue; with an effect
already queued the party branch enqueues nothing and schedules no timer. -/
theorem party_mode_fade (c : MainLightingController) (r : ℚ)
    (hp : c.getModeFlag MODE_FLAG_PARTY = true) (_h0 : 0 ≤ r) (_h360 : r ≤ 360) :
    (c.hasQueuedEffect = false →
       c.update r =
         { c.queueEffect (Effect.Fade ⟨r, 100, c.getUserBrightness⟩ 2) with
             party_timers := 2 :: c.party_timers }) ∧
    (c.hasQueuedEffect = true → c.update r = c) := by
  constructor
  · intro hq
    simp [MainLightingController.update, hp, hq, MainLightingController.queueEffect]
  · intro hq
    simp [MainLightingController.update, hp, hq]

/-- Claim C4 witness: party mode on an empty queue enqueues the fade and
schedules the timer; party mode with a pending effect does nothing. -/
theorem party_mode_fade_spot :
    (let c := { baseMain "idle" "none" with
                  prefs := basePrefs.setAsBoolean MODE_FLAG_PARTY true }
     c.update 180 =
       { c.queueEffect (Effect.Fade ⟨180, 100, c.getUserBrightness⟩ 2) with
           party_timers := 2 :: c.party_timers }) ∧
    (let c := { baseMain "idle" "none" with
                  prefs := basePrefs.setAsBoolean MODE_FLAG_PARTY true,
                  queue := [ Effect.Fade colorTheme.WHITE 6,
                             Effect.Static colorTheme.GREEN ] }
     c.update 180 = c) := by
  constructor
  · exact (party_mode_fade _ 180 (by decide) (by norm_num) (by norm_num)).1 (by decide)
  · exact (party_mode_fade _ 180 (by decide) (by norm_num) (by norm_num)).2 (by decide)

/-- Claim C5: setModeFlag and setRuntimeFlag reject a flag name outside
their closed sets with an InvalidFlag error raised before any mutation,
and with a recognized name store the new boolean value and trigger
re-evaluation of the priority policy: the returned state is exactly the
flag-stored state with `update` applied (twice for mode flags — once by
the write-through property notification, once by the explicit call — and
once for runtime flags).  An unrecognized name is never silently
ignored. -/
theorem flag_setters_validate (c : MainLightingController) (flag : String) (v : Bool)
    (r : ℚ) :
    (flag ∉ ALL_MODE_FLAGS → c.setModeFlag flag v r = Except.error "InvalidFlag") ∧
    (flag ∈ ALL_MODE_FLAGS →
       ∃ c2, c.setModeFlag flag v r = Except.ok c2 ∧ c2.getModeFlag flag = v ∧
         c2 = (({ c with prefs := c.prefs.setAsBoolean flag v }).update r).update r) ∧
    (flag ∉ ALL_RUNTIME_FLAGS → c.setRuntimeFlag flag v r = Except.error "InvalidFlag") ∧
    (flag ∈ ALL_RUNTIME_FLAGS →
       ∃ c2, c.setRuntimeFlag flag v r = Except.ok c2 ∧ c2.getRuntimeFlag flag = v ∧
         c2 = ({ c with runtime_flags := setFlagEntry c.runtime_flags flag v }).update r) := by
  refine ⟨?_, ?_, ?_, ?_⟩
  · intro h
    simp [MainLightingController.setModeFlag, h]
  · intro h
    refine ⟨(({ c with prefs := c.prefs.setAsBoolean flag v }).update r).update r,
            ?_, ?_, rfl⟩
    · simp [MainLightingController.setModeFlag, h]
    · rw [MainLightingController.update_getModeFlag, MainLightingController.update_getModeFlag]
      simp [MainLightingController.getModeFlag, RegistryFile.setAsBoolean,
            RegistryFile.getAsBoolean, lookup_setEntry_self]
  · intro h
    simp [MainLightingController.setRuntimeFlag, h]
  · intro h
    refine ⟨({ c with runtime_flags := setFlagEntry c.runtime_flags flag v }).update r,
            ?_, ?_, rfl⟩
    · simp [MainLightingController.setRuntimeFlag, h]
    · rw [MainLightingController.update_getRuntimeFlag]
      simp [MainLightingController.getRuntimeFlag, lookup_setFlagEntry_self]

/-- Claim C5 witness: a bogus flag name is rejected by both setters; the
party mode flag and the authenticating runtime flag are stored when set. -/
theorem flag_setters_validate_spot :
    ((baseMain "idle" "none").setModeFlag "bogus" true 0 = Except.error "InvalidFlag") ∧
    ((baseMain "idle" "none").setRuntimeFlag "bogus" true 0 = Except.error "InvalidFlag") ∧
    (∃ c2, (baseMain "idle" "none").setModeFlag MODE_FLAG_PARTY true 0 = Except.ok c2 ∧
       c2.getModeFlag MODE_FLAG_PARTY = true ∧
       c2 = (({ baseMain "idle" "none" with
                  prefs := (baseMain "idle" "none").prefs.setAsBoolean
                    MODE_FLAG_PARTY true }).update 0).update 0) ∧
    (∃ c2, (baseMain "idle" "none").setRuntimeFlag RUNTIME_FLAG_AUTHENTICATING true 0 =
       Except.ok c2 ∧ c2.getRuntimeFlag RUNTIME_FLAG_AUTHENTICATING = true ∧
       c2 = ({ baseMain "idle" "none" with
                 runtime_flags := setFlagEntry (baseMain "idle" "none").runtime_flags
                   RUNTIME_FLAG_AUTHENTICATING true }).update 0) := by
  refine ⟨?_, ?_, ?_, ?_⟩
  · exact (flag_setters_validate (baseMain "idle" "none") "bogus" true 0).1 (by decide)
  · exact (flag_setters_validate (baseMain "idle" "none") "bogus" true 0).2.2.1 (by decide)
  · exact (flag_setters_validate (baseMain "idle" "none") MODE_FLAG_PARTY true 0).2.1
      (by decide)
  · exact (flag_setters_validate (baseMain "idle" "none") RUNTIME_FLAG_AUTHENTICATING
      true 0).2.2.2 (by decide)

/-- Claim C6: setUserBrightness stores the clamped value
min(max(b, 0), 100), so a subsequent getUserBrightness returns a value in
the range 0 to 100; in particular 150 clamps to 100 and -10 clamps to 0. -/
theorem set_user_brightness_clamps (c : MainLightingController) (b r : ℚ) :
    (c.setUserBrightness b r).getUserBrightness = min (max b 0) 100 ∧
    0 ≤ (c.setUserBrightness b r).getUserBrightness ∧
    (c.setUserBrightness b r).getUserBrightness ≤ 100 ∧
    (c.setUserBrightness 150 r).getUserBrightness = 100 ∧
    (c.setUserBrightness (-10) r).getUserBrightness = 0 := by
  have key : ∀ x : ℚ, (c.setUserBrightness x r).getUserBrightness = max 0 (min x 100) := by
    intro x
    unfold MainLightingController.setUserBrightness
    rw [MainLightingController.update_getUserBrightness]
    simp [MainLightingController.getUserBrightness, RegistryFile.setAsFloat,
          RegistryFile.getAsFloat, lookup_setEntry_self]
  have hmm : ∀ x : ℚ, max 0 (min x 100) = min (max x 0) 100 := by
    intro x
    rw [max_min_distrib_left, max_comm 0 x]
    norm_num
  refine ⟨?_, ?_, ?_, ?_, ?_⟩
  · rw [key, hmm]
  · rw [key]
    exact le_max_left 0 _
  · rw [key]
    exact max_le (by norm_num) (min_le_right _ _)
  · rw [key]
    norm_num
  · rw [key]
    norm_num

/-- Claim C7: the main color setters apply no clamping, so a set-then-get
round trip returns exactly the given value for hue, saturation and
brightness, even out of range — the asymmetry with the clamping
setUserBrightness is intentional. -/
theorem color_setters_round_trip (c : MainLightingController) (v r : ℚ) :
    (c.setMainColorHue v r).getMainColorHue = v ∧
    (c.setMainColorSaturation v r).getMainColorSaturation = v ∧
    (c.setMainColorBrightness v r).getMainColorBrightness = v := by
  refine ⟨?_, ?_, ?_⟩ <;>
    simp [MainLightingController.setMainColorHue,
          MainLightingController.setMainColorSaturation,
          MainLightingController.setMainColorBrightness,
          MainLightingController.getMainColorHue,
          MainLightingController.getMainColorSaturation,
          MainLightingController.getMainColorBrightness,
          MainLightingController.update_main_color]

/-- Claim C8: every color the main controller resolves for emission — the
Blink color and the bright Glow endpoint — keeps the stored hue and
saturation and scales the value by user_brightness / 100; the dark Glow
endpoint further multiplies the value by 0.3; the authenticating/message
branch enqueues the Glow between them at 0.1 Hz. -/
theorem emitted_color_resolution (c : MainLightingController) (f n r : ℚ) :
    c.blink f n = c.queueEffect (Effect.Blink
      ⟨c.main_color.hue, c.main_color.saturation,
       c.main_color.value * c.getUserBrightness / 100⟩ f n) ∧
    (c.getModeFlag MODE_FLAG_PARTY = false →
     (c.getRuntimeFlag RUNTIME_FLAG_AUTHENTICATING ||
      c.getRuntimeFlag RUNTIME_FLAG_MESSAGE) = true →
       c.update r = c.queueEffect (Effect.Glow
         ⟨c.main_color.hue, c.main_color.saturation,
          c.main_color.value * c.getUserBrightness / 100⟩
         ⟨c.main_color.hue, c.main_color.saturation,
          c.main_color.value * c.getUserBrightness / 100 * (3/10)⟩
         (1/10))) := by
  constructor
  · rfl
  · intro hp hrm
    simp [MainLightingController.update, hp, hrm, MainLightingController.getColor,
          MainLightingController.getDarkColor, DEFAULT_GLOW_FREQUENCY,
          DARK_COLOR_BRIGHTNESS_FACTOR]

/-- Claim C8 witness: the glow branch evaluated at a concrete state with
the authenticating runtime flag set. -/
theorem emitted_color_resolution_spot :
    (let c := { baseMain "idle" "none" with
                  runtime_flags := [ (RUNTIME_FLAG_AUTHENTICATING, true) ] }
     c.update 0 = c.queueEffect (Effect.Glow
       ⟨c.main_color.hue, c.main_color.saturation,
        c.main_color.value * c.getUserBrightness / 100⟩
       ⟨c.main_color.hue, c.main_color.saturation,
        c.main_color.value * c.getUserBrightness / 100 * (3/10)⟩
       (1/10))) := by
  exact (emitted_color_resolution _ 1 1 0).2 (by decide) (by decide)

/-- Claim C9: resetToDefaultValues writes exactly the documented defaults
into the persisted store — glow_when_print_is_finished true,
on_when_printing false, party false, user_brightness 100 — and forces a
save, so a reload of the store yields exactly these values regardless of
the previous settings. -/
theorem reset_to_defaults_persists (c : MainLightingController) :
    ((c.resetToDefaultValues).prefs.reload.getAsBoolean MODE_FLAG_GLOW_WHEN_FINISHED =
       some true) ∧
    ((c.resetToDefaultValues).prefs.reload.getAsBoolean MODE_FLAG_ON_WHEN_PRINTING =
       some false) ∧
    ((c.resetToDefaultValues).prefs.reload.getAsBoolean MODE_FLAG_PARTY = some false) ∧
    ((c.resetToDefaultValues).prefs.reload.getAsFloat "user_brightness" = some 100) := by
  refine ⟨?_, ?_, ?_, ?_⟩ <;>
    simp [MainLightingController.resetToDefaultValues, RegistryFile.reload,
          RegistryFile.forceSave, RegistryFile.setAsBoolean, RegistryFile.setAsFloat,
          RegistryFile.getAsBoolean, RegistryFile.getAsFloat, setEntry, List.lookup,
          MODE_FLAG_GLOW_WHEN_FINISHED, MODE_FLAG_ON_WHEN_PRINTING, MODE_FLAG_PARTY]

theorem applyOp_ring_preserved (s : LedService) (op : LedOp)
    (h : s.button_ring_controller = none) (hs : op.ringSafe) :
    (applyOp s op).button_ring_controller = none := by
  cases op with
  | resetSettings =>
      cases hm : s.main_controller <;>
        simp [applyOp, LedService.resetSettings, hm, h]
  | setMainLightingHue v r =>
      cases hm : s.main_controller <;>
        simp [applyOp, LedService.setMainLightingHue, hm, h]
  | setMainLightingSaturation v r =>
      cases hm : s.main_controller <;>
        simp [applyOp, LedService.setMainLightingSaturation, hm, h]
  | setMainLightingBrightness v r =>
      cases hm : s.main_controller <;>
        simp [applyOp, LedService.setMainLightingBrightness, hm, h]
  | setRingLightingHue v =>
      simp [applyOp, LedService.setRingLightingHue, h]
  | setRingLightingSaturation v =>
      simp [applyOp, LedService.setRingLightingSaturation, h]
  | setRingLightingBrightness v =>
      simp [applyOp, LedService.setRingLightingBrightness, h]
  | setMainLightingUserBrightness v r =>
      cases hm : s.main_controller <;>
        simp [applyOp, LedService.setMainLightingUserBrightness, hm, h]
  | setMainLightingModeFlag f v r =>
      cases hm : s.main_controller with
      | none => simp [applyOp, LedService.setMainLightingModeFlag, hm, h]
      | some c =>
          cases hr : c.setModeFlag f v r <;>
            simp [applyOp, LedService.setMainLightingModeFlag, Except.map, hm, hr, h]
  | setMainLightingRuntimeFlag f v r =>
      cases hm : s.main_controller with
      | none => simp [applyOp, LedService.setMainLightingRuntimeFlag, hm, h]
      | some c =>
          cases hr : c.setRuntimeFlag f v r <;>
            simp [applyOp, LedService.setMainLightingRuntimeFlag, Except.map, hm, hr, h]
  | blinkMainLighting f n =>
      cases hm : s.main_controller <;>
        simp [applyOp, LedService.blinkMainLighting, hm, h]
  | printerStateChanged value env r =>
      obtain ⟨h1, h2⟩ := hs
      have hb : (env.machine_bom == "9066" || env.machine_bom == "9511") = false := by
        simp [h1, h2]
      simp only [applyOp, LedService.onPrinterStateChanged, LedService.start, h,
                 Option.map_none']
      repeat' split
      all_goals simp_all
  | jobStateChanged value r =>
      simp [applyOp, h]
  | interactionRequiredChanged value =>
      simp [applyOp, h]

theorem applyOps_ring_preserved (s : LedService) (ops : List LedOp)
    (h : s.button_ring_controller = none) (hops : ∀ op ∈ ops, op.ringSafe) :
    (applyOps s ops).button_ring_controller = none := by
  induction ops generalizing s with
  | nil => exact h
  | cons op ops ih =>
      exact ih (applyOp s op)
        (applyOp_ring_preserved s op h (hops op (by simp)))
        (fun o ho => hops o (by simp [ho]))

/-- Claim C10: on a machine whose BOM type id is neither 9066 nor 9511,
startup never assigns the button-ring controller, so after any lifetime
of operations the ring facade getters return 0 and the ring facade
setters are no-ops — the not-yet-constructed degradation is permanent for
the ring zone. -/
theorem ring_permanently_absent (s : LedService) (ops : List LedOp)
    (h0 : s.button_ring_controller = none)
    (hops : ∀ op ∈ ops, op.ringSafe) :
    (applyOps s ops).button_ring_controller = none ∧
    (applyOps s ops).getRingLightingHue = 0 ∧
    (applyOps s ops).getRingLightingSaturation = 0 ∧
    (applyOps s ops).getRingLightingBrightness = 0 ∧
    (∀ v, (applyOps s ops).setRingLightingHue v = applyOps s ops) ∧
    (∀ v, (applyOps s ops).setRingLightingSaturation v = applyOps s ops) ∧
    (∀ v, (applyOps s ops).setRingLightingBrightness v = applyOps s ops) := by
  have hr := applyOps_ring_preserved s ops h0 hops
  refine ⟨hr, ?_, ?_, ?_, ?_, ?_, ?_⟩ <;>
    simp [LedService.getRingLightingHue, LedService.getRingLightingSaturation,
          LedService.getRingLightingBrightness, LedService.setRingLightingHue,
          LedService.setRingLightingSaturation, LedService.setRingLightingBrightness, hr]

/-- A startup environment on a non-UM3 machine (BOM id 9999). -/
def sampleEnv : StartEnv :=
  { machine_bom := "9999", prefs := { mem := [], disk := [] },
    printer_state := "idle", job_state := "none", interaction_required := false }

/-- Claim C10 witness: a concrete lifetime — boot-completion on a BOM
9999 machine followed by a ring setter call — leaves the ring controller
absent and the ring getters at their zero value. -/
theorem ring_permanently_absent_spot :
    (applyOps LedService.mk0
      [ LedOp.printerStateChanged "idle" sampleEnv 0,
        LedOp.setRingLightingHue 50 ]).button_ring_controller = none ∧
    (applyOps LedService.mk0
      [ LedOp.printerStateChanged "idle" sampleEnv 0,
        LedOp.setRingLightingHue 50 ]).getRingLightingHue = 0 := by
  have hops : ∀ op ∈ [ LedOp.printerStateChanged "idle" sampleEnv 0,
                       LedOp.setRingLightingHue 50 ], op.ringSafe := by
    intro op hop
    simp only [List.mem_cons, List.not_mem_nil, or_false] at hop
    rcases hop with rfl | rfl
    · exact ⟨by decide, by decide⟩
    · trivial
  have h := ring_permanently_absent LedService.mk0
    [ LedOp.printerStateChanged "idle" sampleEnv 0, LedOp.setRingLightingHue 50 ]
    rfl hops
  exact ⟨h.1, h.2.1⟩
